import Mathlib

/-!
Shallow embedding of the user microservice in `src/index.js`: an Express app
over a Mongoose/MongoDB `User` collection with four CRUD route handlers
(`POST /createUser`, `DELETE /deleteUser/:id`, `PUT /updateUser/:id`,
`GET /users`).

Modelling choices, traced to the source:

* A request-body field (`req.body.name`, …) is an `Option String`: `none` for
  a field that is absent or `null` in the JSON body, `some s` for a string
  value.  JavaScript truthiness of such a value (`!name` on line 148) is
  `falsy` below: `none` and `some ""` are falsy, every other string is truthy.
* The Mongo collection is a list of `UserRec` plus a counter from which the
  driver generates fresh `_id`s (ObjectIds are modelled as `Nat`).  Stored
  field values are `Option String` because the reference implementation can
  write absent values through `findByIdAndUpdate` (the schema on lines 70-74
  marks them required for `save`).
* `mongoose.Types.ObjectId.isValid` (line 294) accepts exactly the strings
  that cast to an ObjectId: 24 hex characters, or a 12-character (12-byte)
  string.  `castId` performs that cast; `isValidObjectId` is its success test.
* A Mongoose/Mongo error that a handler catches (duplicate-key from the
  `unique: true` email index on line 72, a CastError from a malformed id, a
  required-validator failure) is an `ErrKind`; every handler maps a caught
  error to a 500 response whose JSON carries a message and the error object.
-/

/-- A stored user document: generated `_id` plus the three schema fields
(`src/index.js` lines 70-74). -/
structure UserRec where
  id : Nat
  name : Option String
  email : Option String
  dateOfBirth : Option String
deriving DecidableEq, Repr

/-- The database state: the `User` collection and the source of fresh ids. -/
structure DbState where
  users : List UserRec
  nextId : Nat
deriving DecidableEq, Repr

/-- The state of a fresh, empty database. -/
def initState : DbState := ⟨[], 0⟩

/-- JavaScript falsiness of a request-body field: absent/`null` and the empty
string are falsy (the `!name || !email || !dateOfBirth` test on line 148). -/
def falsy : Option String → Bool
  | none => true
  | some s => s == ""

/-- Errors thrown by the storage layer and caught by the handlers. -/
inductive ErrKind where
  | duplicateKey : ErrKind
  | castErr : ErrKind
  | validatorErr : ErrKind
deriving DecidableEq, Repr

/-- A JSON response body: a bare message, a message with the caught error
object, a message with the affected user, or the list of all users. -/
inductive Body where
  | msg : String → Body
  | msgErr : String → ErrKind → Body
  | msgUser : String → UserRec → Body
  | users : List UserRec → Body
deriving DecidableEq, Repr

/-- An HTTP response: status code and JSON body. -/
structure Response where
  status : Nat
  body : Body
deriving DecidableEq, Repr

/-- Is `c` an ASCII hexadecimal digit? -/
def isHexChar (c : Char) : Bool :=
  (48 ≤ c.toNat && c.toNat ≤ 57) || (97 ≤ c.toNat && c.toNat ≤ 102) ||
    (65 ≤ c.toNat && c.toNat ≤ 70)

/-- Value of a hexadecimal digit. -/
def hexVal (c : Char) : Nat :=
  if 48 ≤ c.toNat && c.toNat ≤ 57 then c.toNat - 48
  else if 97 ≤ c.toNat && c.toNat ≤ 102 then c.toNat - 87
  else if 65 ≤ c.toNat && c.toNat ≤ 70 then c.toNat - 55
  else 0

/-- Numeric value of a 24-character hexadecimal ObjectId string. -/
def hexToNat (s : String) : Nat :=
  s.toList.foldl (fun a c => 16 * a + hexVal c) 0

/-- Numeric value of a 12-byte string interpreted as an ObjectId. -/
def bytesToNat (s : String) : Nat :=
  s.toList.foldl (fun a c => 256 * a + c.toNat % 256) 0

/-- Cast a string to an ObjectId, as the Mongoose driver does when an id is
used in `findByIdAndUpdate` / `findByIdAndDelete`: 24 hex characters or a
12-character string succeed, anything else raises a CastError (`none`). -/
def castId (s : String) : Option Nat :=
  if s.length == 24 && s.toList.all isHexChar then some (hexToNat s)
  else if s.length == 12 then some (bytesToNat s)
  else none

/-- `mongoose.Types.ObjectId.isValid` (line 294): a string is a well-formed
identifier exactly when it casts to an ObjectId. -/
def isValidObjectId (s : String) : Bool :=
  (castId s).isSome

/-- `new User({name, email, dateOfBirth}); await newUser.save()`
(lines 153-154): schema `required` validators run, then the unique index on
`email` rejects a duplicate; otherwise the document is inserted with a fresh
generated id. -/
def saveUser (st : DbState) (name email dob : Option String) :
    Except ErrKind (UserRec × DbState) :=
  if falsy name || falsy email || falsy dob then .error .validatorErr
  else if st.users.any (fun u => u.email == email) then .error .duplicateKey
  else
    .ok (⟨st.nextId, name, email, dob⟩,
      ⟨st.users ++ [⟨st.nextId, name, email, dob⟩], st.nextId + 1⟩)

/-- `app.post('/createUser')` (lines 143-161): validate field presence, then
save; a caught storage error becomes a 500 response and leaves the state
unchanged. -/
def createUser (st : DbState) (name email dob : Option String) :
    Response × DbState :=
  if falsy name || falsy email || falsy dob then
    (⟨400, .msg "All fields are required."⟩, st)
  else
    match saveUser st name email dob with
    | .ok (u, st') => (⟨201, .msgUser "User created successfully" u⟩, st')
    | .error e => (⟨500, .msgErr "Error creating user" e⟩, st)

/-- Remove the first document whose id is `i` (Mongo `_id` is a primary key,
so at most one document matches). -/
def removeFirstById : List UserRec → Nat → List UserRec
  | [], _ => []
  | r :: rs, i => if r.id == i then rs else r :: removeFirstById rs i

/-- Replace the first document whose id is `i` by `u`. -/
def updateFirstById : List UserRec → Nat → UserRec → List UserRec
  | [], _, _ => []
  | r :: rs, i, u => if r.id == i then u :: rs else r :: updateFirstById rs i u

/-- `app.delete('/deleteUser/:id')` (lines 210-225): `findByIdAndDelete` casts
the id (a CastError is caught as a 500), returns `null` when no document
matches (404), and otherwise deletes and returns the document (200). -/
def deleteUser (st : DbState) (idStr : String) : Response × DbState :=
  match castId idStr with
  | none => (⟨500, .msgErr "Error deleting user" .castErr⟩, st)
  | some oid =>
    match st.users.find? (fun r => r.id == oid) with
    | none => (⟨404, .msg "User not found"⟩, st)
    | some u =>
      (⟨200, .msgUser "User deleted successfully" u⟩,
        ⟨removeFirstById st.users oid, st.nextId⟩)

/-- `app.put('/updateUser/:id')` (lines 288-315): reject a malformed id with
400 before any lookup, then `findByIdAndUpdate` with the update document
`{name, email, dateOfBirth}` taken from the body whether or not the fields are
present — per the reference behaviour (§3/§9 of the specification) absent
values overwrite the stored ones.  `new: true` returns the updated document.
The inner CastError branch is unreachable because `isValidObjectId` is
exactly the success test of the cast. -/
def updateUser (st : DbState) (idStr : String) (name email dob : Option String) :
    Response × DbState :=
  if isValidObjectId idStr then
    match castId idStr with
    | none => (⟨500, .msgErr "Error updating user" .castErr⟩, st)
    | some oid =>
      match st.users.find? (fun r => r.id == oid) with
      | none => (⟨404, .msg "User not found"⟩, st)
      | some u =>
        (⟨200, .msgUser "User updated successfully" ⟨u.id, name, email, dob⟩⟩,
          ⟨updateFirstById st.users oid ⟨u.id, name, email, dob⟩, st.nextId⟩)
  else
    (⟨400, .msg "Invalid user ID format"⟩, st)

/-- `app.get('/users')` (lines 338-346): `User.find()` returns every document,
unpaginated and unfiltered. -/
def getUsers (st : DbState) : Response × DbState :=
  (⟨200, .users st.users⟩, st)

/-- A create request body. -/
structure CreateReq where
  name : Option String
  email : Option String
  dateOfBirth : Option String
deriving DecidableEq, Repr

/-- Run a sequence of create requests, threading the database state. -/
def runCreates (st : DbState) (reqs : List CreateReq) : DbState :=
  reqs.foldl (fun s r => (createUser s r.name r.email r.dateOfBirth).2) st

/-- The three schema fields of a stored document. -/
def fieldsOf (u : UserRec) : Option String × Option String × Option String :=
  (u.name, u.email, u.dateOfBirth)

/-- The three fields of a create request. -/
def reqFields (r : CreateReq) : Option String × Option String × Option String :=
  (r.name, r.email, r.dateOfBirth)

/-! ### Helper lemmas -/

lemma any_email_eq_false {l : List UserRec} {e : Option String}
    (h : ∀ u ∈ l, u.email ≠ e) : l.any (fun u => u.email == e) = false := by
  rw [List.any_eq_false]
  intro u hu
  simp only [beq_iff_eq]
  exact h u hu

lemma saveUser_ok_elim {st : DbState} {n e d : Option String} {u : UserRec}
    {st' : DbState} (h : saveUser st n e d = .ok (u, st')) :
    u = ⟨st.nextId, n, e, d⟩ ∧ st' = ⟨st.users ++ [u], st.nextId + 1⟩ := by
  unfold saveUser at h
  split at h
  · cases h
  · split at h
    · cases h
    · injection h with h
      rw [Prod.mk.injEq] at h
      obtain ⟨h1, h2⟩ := h
      subst h1
      subst h2
      exact ⟨rfl, rfl⟩

lemma mem_of_mem_removeFirstById {l : List UserRec} {i : Nat} {r : UserRec}
    (h : r ∈ removeFirstById l i) : r ∈ l := by
  induction l with
  | nil => simp [removeFirstById] at h
  | cons a as ih =>
    by_cases ha : (a.id == i) = true
    · rw [removeFirstById, if_pos ha] at h
      exact List.mem_cons_of_mem a h
    · rw [removeFirstById, if_neg ha] at h
      rcases List.mem_cons.mp h with h | h
      · exact h ▸ List.mem_cons_self a as
      · exact List.mem_cons_of_mem a (ih h)

lemma removeFirstById_no_id {l : List UserRec} {i : Nat}
    (hnd : (l.map (fun r => r.id)).Nodup) :
    ∀ r ∈ removeFirstById l i, r.id ≠ i := by
  induction l with
  | nil => simp [removeFirstById]
  | cons a as ih =>
    simp only [List.map_cons, List.nodup_cons] at hnd
    by_cases ha : (a.id == i) = true
    · rw [removeFirstById, if_pos ha]
      intro r hr
      have hai : a.id = i := by simpa [beq_iff_eq] using ha
      intro hri
      exact hnd.1 (hai ▸ hri ▸ List.mem_map_of_mem (fun r => r.id) hr)
    · rw [removeFirstById, if_neg ha]
      intro r hr
      rcases List.mem_cons.mp hr with h | h
      · subst h; simpa [beq_iff_eq] using ha
      · exact ih hnd.2 r h

lemma map_id_updateFirstById {l : List UserRec} {i : Nat} {u : UserRec}
    (h : u.id = i) :
    (updateFirstById l i u).map (fun r => r.id) = l.map (fun r => r.id) := by
  induction l with
  | nil => simp [updateFirstById]
  | cons a as ih =>
    by_cases ha : (a.id == i) = true
    · rw [updateFirstById, if_pos ha]
      have hai : a.id = i := by simpa [beq_iff_eq] using ha
      simp [h, hai]
    · rw [updateFirstById, if_neg ha]
      simp [ih]

lemma mem_updateFirstById {l : List UserRec} {i : Nat} {u w : UserRec}
    (h : l.find? (fun r => r.id == i) = some w) :
    u ∈ updateFirstById l i u := by
  induction l with
  | nil => simp [List.find?] at h
  | cons a as ih =>
    by_cases ha : (a.id == i) = true
    · rw [updateFirstById, if_pos ha]
      exact List.mem_cons_self u _
    · have ha' : (a.id == i) = false := by simpa using ha
      rw [updateFirstById, if_neg ha]
      rw [List.find?] at h
      simp only [ha'] at h
      exact List.mem_cons_of_mem a (ih h)

/-! ### Claim theorems -/

/-- C5: for every create request in which any of name, email or dateOfBirth is
missing, the handler returns HTTP 400 and the stored collection of users is
unchanged (nothing is persisted). -/
theorem createUser_missing_field_rejected (st : DbState) (n e d : Option String)
    (h : n = none ∨ e = none ∨ d = none) :
    (createUser st n e d).1.status = 400 ∧ (createUser st n e d).2 = st := by
  have hf : (falsy n || falsy e || falsy d) = true := by
    rcases h with h | h | h <;> subst h <;> simp [falsy]
  simp [createUser, hf]

theorem createUser_missing_field_rejected_witness :
    (createUser initState (some "John") none (some "1990-01-01")).1.status = 400 ∧
      (createUser initState (some "John") none (some "1990-01-01")).2 = initState :=
  createUser_missing_field_rejected initState (some "John") none
    (some "1990-01-01") (Or.inr (Or.inl rfl))

/-- C10: the create handler answers 400 with message "All fields are
required." exactly when one of the three body fields is falsy (absent, `null`,
or the empty string), and in that case the store is untouched and the response
does not depend on the store at all (validation happens before any storage
access). -/
theorem createUser_validation_characterisation (st st2 : DbState)
    (n e d : Option String) :
    ((createUser st n e d).1 = ⟨400, .msg "All fields are required."⟩ ↔
      (falsy n = true ∨ falsy e = true ∨ falsy d = true)) ∧
    ((falsy n = true ∨ falsy e = true ∨ falsy d = true) →
      (createUser st n e d).2 = st ∧
        (createUser st n e d).1 = (createUser st2 n e d).1) := by
  by_cases hf : (falsy n || falsy e || falsy d) = true
  · have h3 : falsy n = true ∨ falsy e = true ∨ falsy d = true := by
      simpa [Bool.or_eq_true, or_assoc] using hf
    simp [createUser, hf, h3]
  · have h3 : ¬(falsy n = true ∨ falsy e = true ∨ falsy d = true) := by
      simpa [Bool.or_eq_true, and_assoc] using hf
    have hne :
        ¬((createUser st n e d).1 = ⟨400, .msg "All fields are required."⟩) := by
      rcases hs : saveUser st n e d with k | ⟨u, st'⟩ <;>
        simp [createUser, hf, hs]
    exact ⟨⟨fun hresp => absurd hresp hne, fun hor => absurd hor h3⟩,
      fun hor => absurd hor h3⟩

theorem createUser_validation_characterisation_witness :
    (createUser initState (some "John") (some "") (some "1990-01-01")).1 =
        ⟨400, Body.msg "All fields are required."⟩ ∧
      (createUser initState (some "John") (some "") (some "1990-01-01")).2 =
        initState :=
  ⟨((createUser_validation_characterisation initState initState (some "John")
        (some "") (some "1990-01-01")).1).mpr (Or.inr (Or.inl (by decide))),
    ((createUser_validation_characterisation initState initState (some "John")
        (some "") (some "1990-01-01")).2 (Or.inr (Or.inl (by decide)))).1⟩

/-- C3: the update handler answers 400 on a malformed identifier — and the
answer is computed from the identifier alone, before any lookup, so the state
is returned untouched whatever the store holds — and 404 on a well-formed
identifier that matches no stored record. -/
theorem updateUser_id_validation (st : DbState) (idStr : String)
    (n e d : Option String) :
    (isValidObjectId idStr = false →
      updateUser st idStr n e d = (⟨400, .msg "Invalid user ID format"⟩, st)) ∧
    (∀ oid, castId idStr = some oid → (∀ u ∈ st.users, u.id ≠ oid) →
      updateUser st idStr n e d = (⟨404, .msg "User not found"⟩, st)) := by
  constructor
  · intro h
    simp [updateUser, h]
  · intro oid hc hnone
    have hv : isValidObjectId idStr = true := by simp [isValidObjectId, hc]
    have hfind : st.users.find? (fun r => r.id == oid) = none := by
      rw [List.find?_eq_none]
      intro u hu
      simp only [beq_iff_eq]
      exact hnone u hu
    simp [updateUser, hv, hc, hfind]

theorem updateUser_id_validation_witness :
    (updateUser initState "xyz" (some "a") (some "b") (some "c") =
      (⟨400, Body.msg "Invalid user ID format"⟩, initState)) ∧
    (updateUser initState "000000000000000000000000" (some "a") (some "b")
        (some "c") = (⟨404, Body.msg "User not found"⟩, initState)) :=
  ⟨(updateUser_id_validation initState "xyz" (some "a") (some "b")
      (some "c")).1 (by decide),
    (updateUser_id_validation initState "000000000000000000000000" (some "a")
      (some "b") (some "c")).2 0 (by decide) (by intro u hu; simp [initState] at hu)⟩

/-- C9: no CRUD operation ever reassigns a stored record's id: an update
(whatever fields it supplies) leaves the list of ids unchanged, a delete only
keeps untouched records, a create at most appends a record with the freshly
generated id, and reading changes nothing. -/
theorem ids_never_reassigned (st : DbState) (idStr : String)
    (n e d : Option String) :
    ((updateUser st idStr n e d).2.users.map (fun r => r.id) =
        st.users.map (fun r => r.id)) ∧
    (∀ r ∈ (deleteUser st idStr).2.users, r ∈ st.users) ∧
    ((createUser st n e d).2.users.map (fun r => r.id) =
        st.users.map (fun r => r.id) ∨
      (createUser st n e d).2.users.map (fun r => r.id) =
        st.users.map (fun r => r.id) ++ [st.nextId]) ∧
    ((getUsers st).2.users.map (fun r => r.id) = st.users.map (fun r => r.id)) := by
  refine ⟨?_, ?_, ?_, rfl⟩
  · by_cases hv : isValidObjectId idStr = true
    · rcases hc : castId idStr with _ | oid
      · simp [updateUser, hv, hc]
      · rcases hf : st.users.find? (fun r => r.id == oid) with _ | u
        · simp [updateUser, hv, hc, hf]
        · have hu : u.id = oid := by
            have := List.find?_some hf
            simpa [beq_iff_eq] using this
          simp only [updateUser, hv, if_true, hc, hf]
          exact map_id_updateFirstById hu
    · have hv' : isValidObjectId idStr = false := by simpa using hv
      simp [updateUser, hv']
  · intro r hr
    rcases hc : castId idStr with _ | oid
    · simp [deleteUser, hc] at hr
      exact hr
    · rcases hf : st.users.find? (fun x => x.id == oid) with _ | u
      · simp [deleteUser, hc, hf] at hr
        exact hr
      · simp [deleteUser, hc, hf] at hr
        exact mem_of_mem_removeFirstById hr
  · by_cases hg : (falsy n || falsy e || falsy d) = true
    · left
      simp [createUser, hg]
    · rcases hs : saveUser st n e d with k | ⟨u, st'⟩
      · left
        simp [createUser, hg, hs]
      · right
        obtain ⟨hu, hst⟩ := saveUser_ok_elim hs
        simp [createUser, hg, hs, hst, hu]

/-- C2: a create request with all three fields present (truthy) and an email
not yet stored answers 201 with the persisted record: its fields are exactly
the input and its id is the freshly generated one, which no stored record
carries (the state's id counter is an upper bound for ids already handed
out). -/
theorem createUser_success (st : DbState) (n e d : Option String)
    (hn : falsy n = false) (he : falsy e = false) (hd : falsy d = false)
    (hdup : ∀ u ∈ st.users, u.email ≠ e)
    (hfresh : ∀ u ∈ st.users, u.id ≠ st.nextId) :
    createUser st n e d =
      (⟨201, .msgUser "User created successfully" ⟨st.nextId, n, e, d⟩⟩,
        ⟨st.users ++ [⟨st.nextId, n, e, d⟩], st.nextId + 1⟩) ∧
    st.nextId ∉ st.users.map (fun r => r.id) := by
  have hany := any_email_eq_false hdup
  constructor
  · simp [createUser, saveUser, hn, he, hd, hany]
  · intro hmem
    obtain ⟨u, hu, hid⟩ := List.mem_map.mp hmem
    exact hfresh u hu hid

theorem createUser_success_witness :
    createUser initState (some "John") (some "j@x.io") (some "1990-01-01") =
      (⟨201, Body.msgUser "User created successfully"
          ⟨0, some "John", some "j@x.io", some "1990-01-01"⟩⟩,
        ⟨[⟨0, some "John", some "j@x.io", some "1990-01-01"⟩], 1⟩) ∧
    (0 : Nat) ∉ initState.users.map (fun r => r.id) :=
  createUser_success initState (some "John") (some "j@x.io")
    (some "1990-01-01") (by decide) (by decide) (by decide)
    (by intro u hu; simp [initState] at hu)
    (by intro u hu; simp [initState] at hu)

/-- C1: a create request whose email is already stored (name and dateOfBirth
present) fails on the storage layer's unique email index with a duplicate-key
conflict — surfaced by the handler as its caught-error 500 response — persists
nothing, and GetAll afterwards still returns the original records. -/
theorem createUser_conflict (st : DbState) (n e d : Option String)
    (hn : falsy n = false) (he : falsy e = false) (hd : falsy d = false)
    (hex : ∃ u ∈ st.users, u.email = e) :
    createUser st n e d =
      (⟨500, .msgErr "Error creating user" .duplicateKey⟩, st) ∧
    (getUsers (createUser st n e d).2).1 = ⟨200, .users st.users⟩ := by
  have hany : st.users.any (fun u => u.email == e) = true := by
    obtain ⟨u, hu, hue⟩ := hex
    exact List.any_eq_true.mpr ⟨u, hu, by simp [beq_iff_eq, hue]⟩
  have h1 : createUser st n e d =
      (⟨500, .msgErr "Error creating user" .duplicateKey⟩, st) := by
    simp [createUser, saveUser, hn, he, hd, hany]
  exact ⟨h1, by rw [h1]; rfl⟩

theorem createUser_conflict_witness :
    createUser ⟨[⟨0, some "Ann", some "ann@x.io", some "1991-02-03"⟩], 1⟩
        (some "Bob") (some "ann@x.io") (some "1992-03-04") =
      (⟨500, Body.msgErr "Error creating user" ErrKind.duplicateKey⟩,
        ⟨[⟨0, some "Ann", some "ann@x.io", some "1991-02-03"⟩], 1⟩) ∧
    (getUsers (createUser
        ⟨[⟨0, some "Ann", some "ann@x.io", some "1991-02-03"⟩], 1⟩
        (some "Bob") (some "ann@x.io") (some "1992-03-04")).2).1 =
      ⟨200, Body.users [⟨0, some "Ann", some "ann@x.io", some "1991-02-03"⟩]⟩ :=
  createUser_conflict ⟨[⟨0, some "Ann", some "ann@x.io", some "1991-02-03"⟩], 1⟩
    (some "Bob") (some "ann@x.io") (some "1992-03-04")
    (by decide) (by decide) (by decide)
    ⟨⟨0, some "Ann", some "ann@x.io", some "1991-02-03"⟩, by decide, rfl⟩

/-- C6: an update request whose identifier is well-formed and matches a stored
record answers 200 with the updated record and overwrites the record's three
fields with exactly the supplied values — including absent values for fields
missing from the request body. -/
theorem updateUser_overwrites (st : DbState) (idStr : String)
    (n e d : Option String) (oid : Nat) (u : UserRec)
    (hc : castId idStr = some oid)
    (hf : st.users.find? (fun r => r.id == oid) = some u) :
    updateUser st idStr n e d =
      (⟨200, .msgUser "User updated successfully" ⟨u.id, n, e, d⟩⟩,
        ⟨updateFirstById st.users oid ⟨u.id, n, e, d⟩, st.nextId⟩) ∧
    (⟨u.id, n, e, d⟩ : UserRec) ∈ (updateUser st idStr n e d).2.users := by
  have hv : isValidObjectId idStr = true := by simp [isValidObjectId, hc]
  have h1 : updateUser st idStr n e d =
      (⟨200, .msgUser "User updated successfully" ⟨u.id, n, e, d⟩⟩,
        ⟨updateFirstById st.users oid ⟨u.id, n, e, d⟩, st.nextId⟩) := by
    simp [updateUser, hv, hc, hf]
  refine ⟨h1, ?_⟩
  rw [h1]
  exact mem_updateFirstById hf

theorem updateUser_overwrites_witness :
    updateUser ⟨[⟨0, some "Ann", some "ann@x.io", some "1991-02-03"⟩], 1⟩
        "000000000000000000000000" (some "New") (some "new@x.io") none =
      (⟨200, Body.msgUser "User updated successfully"
          ⟨0, some "New", some "new@x.io", none⟩⟩,
        ⟨[⟨0, some "New", some "new@x.io", none⟩], 1⟩) ∧
    (⟨0, some "New", some "new@x.io", none⟩ : UserRec) ∈
      (updateUser ⟨[⟨0, some "Ann", some "ann@x.io", some "1991-02-03"⟩], 1⟩
        "000000000000000000000000" (some "New") (some "new@x.io") none).2.users :=
  updateUser_overwrites ⟨[⟨0, some "Ann", some "ann@x.io", some "1991-02-03"⟩], 1⟩
    "000000000000000000000000" (some "New") (some "new@x.io") none 0
    ⟨0, some "Ann", some "ann@x.io", some "1991-02-03"⟩ (by decide) (by decide)

/-- C4, counterexample: with an empty store no record matches the identifier
"xyz", yet delete answers 500 — `findByIdAndDelete` throws a CastError on the
malformed identifier and the handler's catch block answers 500 — not 404. -/
theorem deleteUser_malformed_counterexample :
    initState.users = [] ∧
    (deleteUser initState "xyz").1.status = 500 ∧
    ¬((deleteUser initState "xyz").1.status = 404) := by decide

/-- C4, amended: when the identifier casts to an ObjectId and no stored
record matches it, delete answers 404 and changes nothing; when the cast
fails, the thrown CastError is caught and answered as 500 with the store
untouched; when a record matches, delete answers 200 with the deleted
snapshot and afterwards no record with that id remains (ids being unique in
the store), every surviving record was already stored, and GetAll returns
exactly the surviving records. -/
theorem deleteUser_spec (st : DbState) (idStr : String) :
    (castId idStr = none →
      deleteUser st idStr = (⟨500, .msgErr "Error deleting user" .castErr⟩, st)) ∧
    (∀ oid, castId idStr = some oid → (∀ u ∈ st.users, u.id ≠ oid) →
      deleteUser st idStr = (⟨404, .msg "User not found"⟩, st)) ∧
    (∀ oid u, castId idStr = some oid →
      st.users.find? (fun r => r.id == oid) = some u →
      (st.users.map (fun r => r.id)).Nodup →
      (deleteUser st idStr).1 = ⟨200, .msgUser "User deleted successfully" u⟩ ∧
      (∀ r ∈ (deleteUser st idStr).2.users, r.id ≠ oid) ∧
      (∀ r ∈ (deleteUser st idStr).2.users, r ∈ st.users) ∧
      (getUsers (deleteUser st idStr).2).1 =
        ⟨200, .users (deleteUser st idStr).2.users⟩) := by
  refine ⟨?_, ?_, ?_⟩
  · intro h
    simp [deleteUser, h]
  · intro oid hc hnone
    have hfind : st.users.find? (fun r => r.id == oid) = none := by
      rw [List.find?_eq_none]
      intro u hu
      simp only [beq_iff_eq]
      exact hnone u hu
    simp [deleteUser, hc, hfind]
  · intro oid u hc hfind hnd
    have h2 : deleteUser st idStr =
        (⟨200, .msgUser "User deleted successfully" u⟩,
          ⟨removeFirstById st.users oid, st.nextId⟩) := by
      simp [deleteUser, hc, hfind]
    rw [h2]
    exact ⟨rfl, fun r hr => removeFirstById_no_id hnd r hr,
      fun r hr => mem_of_mem_removeFirstById hr, rfl⟩

theorem deleteUser_spec_witness :
    (deleteUser ⟨[⟨0, some "Ann", some "ann@x.io", some "1991-02-03"⟩], 1⟩
        "000000000000000000000000").1 =
      ⟨200, Body.msgUser "User deleted successfully"
          ⟨0, some "Ann", some "ann@x.io", some "1991-02-03"⟩⟩ ∧
    (deleteUser ⟨[⟨0, some "Ann", some "ann@x.io", some "1991-02-03"⟩], 1⟩
        "000000000000000000000000").2.users = [] :=
  ⟨((deleteUser_spec ⟨[⟨0, some "Ann", some "ann@x.io", some "1991-02-03"⟩], 1⟩
        "000000000000000000000000").2.2 0
      ⟨0, some "Ann", some "ann@x.io", some "1991-02-03"⟩
      (by decide) (by decide) (by decide)).1, by decide⟩

lemma runCreates_fields (reqs : List CreateReq) :
    ∀ st : DbState,
      (∀ r ∈ reqs, falsy r.name = false ∧ falsy r.email = false ∧
        falsy r.dateOfBirth = false) →
      (reqs.map (fun r => r.email)).Nodup →
      (∀ r ∈ reqs, ∀ u ∈ st.users, u.email ≠ r.email) →
      (runCreates st reqs).users.map fieldsOf =
        st.users.map fieldsOf ++ reqs.map reqFields := by
  induction reqs with
  | nil =>
    intro st _ _ _
    simp [runCreates]
  | cons r rest ih =>
    intro st hval hnd hdisj
    have hr := hval r (List.mem_cons_self r rest)
    have hguard : (falsy r.name || falsy r.email || falsy r.dateOfBirth) = false := by
      simp [hr.1, hr.2.1, hr.2.2]
    have hany : st.users.any (fun u => u.email == r.email) = false :=
      any_email_eq_false (fun u hu => hdisj r (List.mem_cons_self r rest) u hu)
    have hstep : (createUser st r.name r.email r.dateOfBirth).2 =
        ⟨st.users ++ [⟨st.nextId, r.name, r.email, r.dateOfBirth⟩],
          st.nextId + 1⟩ := by
      simp [createUser, saveUser, hguard, hany]
    have hcons : runCreates st (r :: rest) =
        runCreates ((createUser st r.name r.email r.dateOfBirth).2) rest := by
      simp [runCreates]
    have hnotmem := (List.nodup_cons.mp hnd).1
    have harg : ∀ r2 ∈ rest, ∀ u ∈
        (⟨st.users ++ [⟨st.nextId, r.name, r.email, r.dateOfBirth⟩],
          st.nextId + 1⟩ : DbState).users, u.email ≠ r2.email := by
      intro r2 hr2 u hu
      rcases List.mem_append.mp hu with hu | hu
      · exact hdisj r2 (List.mem_cons_of_mem r hr2) u hu
      · have hune : u = ⟨st.nextId, r.name, r.email, r.dateOfBirth⟩ := by
          simpa using hu
        intro heq
        rw [hune] at heq
        have heq2 : r.email = r2.email := heq
        refine hnotmem ?_
        simp only [heq2]
        exact List.mem_map_of_mem (fun x => x.email) hr2
    rw [hcons, hstep,
      ih _ (fun r2 hr2 => hval r2 (List.mem_cons_of_mem r hr2))
        (List.nodup_cons.mp hnd).2 harg]
    simp [fieldsOf, reqFields]

/-- C7: running any sequence of valid create requests with pairwise distinct
emails from the empty store and then reading GET /users answers 200 with the
whole collection — exactly as many records as requests, in order, each
carrying exactly the submitted fields, with no pagination or filtering. -/
theorem getAll_after_creates (reqs : List CreateReq)
    (hval : ∀ r ∈ reqs, falsy r.name = false ∧ falsy r.email = false ∧
      falsy r.dateOfBirth = false)
    (hnd : (reqs.map (fun r => r.email)).Nodup) :
    (getUsers (runCreates initState reqs)).1.status = 200 ∧
    (getUsers (runCreates initState reqs)).1.body =
      .users (runCreates initState reqs).users ∧
    (runCreates initState reqs).users.length = reqs.length ∧
    (runCreates initState reqs).users.map fieldsOf = reqs.map reqFields := by
  have h := runCreates_fields reqs initState hval hnd
    (by intro r _ u hu; simp [initState] at hu)
  have h2 : (runCreates initState reqs).users.map fieldsOf =
      reqs.map reqFields := by
    simpa [initState] using h
  refine ⟨rfl, rfl, ?_, h2⟩
  have h3 := congrArg List.length h2
  simpa using h3

theorem getAll_after_creates_witness :
    (getUsers (runCreates initState
        [⟨some "A", some "a@x.io", some "1990-01-01"⟩,
          ⟨some "B", some "b@x.io", some "1991-01-01"⟩])).1.status = 200 ∧
    (getUsers (runCreates initState
        [⟨some "A", some "a@x.io", some "1990-01-01"⟩,
          ⟨some "B", some "b@x.io", some "1991-01-01"⟩])).1.body =
      Body.users (runCreates initState
        [⟨some "A", some "a@x.io", some "1990-01-01"⟩,
          ⟨some "B", some "b@x.io", some "1991-01-01"⟩]).users ∧
    (runCreates initState
        [⟨some "A", some "a@x.io", some "1990-01-01"⟩,
          ⟨some "B", some "b@x.io", some "1991-01-01"⟩]).users.length = 2 ∧
    (runCreates initState
        [⟨some "A", some "a@x.io", some "1990-01-01"⟩,
          ⟨some "B", some "b@x.io", some "1991-01-01"⟩]).users.map fieldsOf =
      [⟨some "A", some "a@x.io", some "1990-01-01"⟩,
        ⟨some "B", some "b@x.io", some "1991-01-01"⟩].map reqFields :=
  getAll_after_creates
    [⟨some "A", some "a@x.io", some "1990-01-01"⟩,
      ⟨some "B", some "b@x.io", some "1991-01-01"⟩]
    (by decide) (by decide)

/-- C8: every outcome of every CRUD handler lands on one of the fixed status
codes — 201 for a successful creation, 200 for the other successes, 400 for
missing create fields or a malformed update identifier, 404 when no record
matches, 500 for a caught storage error — and each error response carries a
human-readable message while each success response carries the affected
record(s). -/
theorem handlers_status_map (st : DbState) (n e d : Option String)
    (idStr : String) :
    (((createUser st n e d).1.status = 201 ∧
        (∃ u, (createUser st n e d).1.body =
            .msgUser "User created successfully" u ∧
          (createUser st n e d).2.users = st.users ++ [u])) ∨
      ((createUser st n e d).1.status = 400 ∧
        (createUser st n e d).1.body = .msg "All fields are required." ∧
        (createUser st n e d).2 = st) ∨
      ((createUser st n e d).1.status = 500 ∧
        (∃ k, (createUser st n e d).1.body = .msgErr "Error creating user" k) ∧
        (createUser st n e d).2 = st)) ∧
    (((deleteUser st idStr).1.status = 200 ∧
        (∃ u, (deleteUser st idStr).1.body =
          .msgUser "User deleted successfully" u)) ∨
      ((deleteUser st idStr).1.status = 404 ∧
        (deleteUser st idStr).1.body = .msg "User not found" ∧
        (deleteUser st idStr).2 = st) ∨
      ((deleteUser st idStr).1.status = 500 ∧
        (∃ k, (deleteUser st idStr).1.body = .msgErr "Error deleting user" k) ∧
        (deleteUser st idStr).2 = st)) ∧
    (((updateUser st idStr n e d).1.status = 200 ∧
        (∃ u, (updateUser st idStr n e d).1.body =
          .msgUser "User updated successfully" u)) ∨
      ((updateUser st idStr n e d).1.status = 400 ∧
        (updateUser st idStr n e d).1.body = .msg "Invalid user ID format" ∧
        (updateUser st idStr n e d).2 = st) ∨
      ((updateUser st idStr n e d).1.status = 404 ∧
        (updateUser st idStr n e d).1.body = .msg "User not found" ∧
        (updateUser st idStr n e d).2 = st) ∨
      ((updateUser st idStr n e d).1.status = 500 ∧
        (∃ k, (updateUser st idStr n e d).1.body =
          .msgErr "Error updating user" k))) ∧
    ((getUsers st).1.status = 200 ∧ (getUsers st).1.body = .users st.users) := by
  refine ⟨?_, ?_, ?_, rfl, rfl⟩
  · by_cases hg : (falsy n || falsy e || falsy d) = true
    · right
      left
      simp [createUser, hg]
    · rcases hs : saveUser st n e d with k | ⟨u, st'⟩
      · right
        right
        simp [createUser, hg, hs]
      · left
        obtain ⟨hu, hst⟩ := saveUser_ok_elim hs
        refine ⟨by simp [createUser, hg, hs], u,
          by simp [createUser, hg, hs], ?_⟩
        simp [createUser, hg, hs, hst]
  · rcases hc : castId idStr with _ | oid
    · right
      right
      simp [deleteUser, hc]
    · rcases hf : st.users.find? (fun r => r.id == oid) with _ | u
      · right
        left
        simp [deleteUser, hc, hf]
      · left
        exact ⟨by simp [deleteUser, hc, hf], u, by simp [deleteUser, hc, hf]⟩
  · by_cases hv : isValidObjectId idStr = true
    · rcases hc : castId idStr with _ | oid
      · right
        right
        right
        simp [updateUser, hv, hc]
      · rcases hf : st.users.find? (fun r => r.id == oid) with _ | u
        · right
          right
          left
          simp [updateUser, hv, hc, hf]
        · left
          exact ⟨by simp [updateUser, hv, hc, hf], ⟨u.id, n, e, d⟩,
            by simp [updateUser, hv, hc, hf]⟩
    · have hv' : isValidObjectId idStr = false := by simpa using hv
      right
      left
      simp [updateUser, hv']
